import Mathlib

/-!
Shallow embedding of the cat tracker's target-acquisition and pan-tilt
control loop (src/cat_tracker/cat_tracker.py) together with the mock servo
driver (src/cat_tracker/servo_driver.py).  Real-valued quantities of the
Python program are modelled by exact rationals; Python's `round` built-in
(round half to even) and `int` conversion (truncation toward zero) are
modelled explicitly.
-/

namespace CatTracker

/-- Python's built-in `round` applied to a real value and converted with
`int`: rounds to the nearest integer, halves to the even neighbour. -/
def pyRound (q : ℚ) : ℤ :=
  if q - ⌊q⌋ < 1/2 then ⌊q⌋
  else if 1/2 < q - ⌊q⌋ then ⌊q⌋ + 1
  else if ⌊q⌋ % 2 = 0 then ⌊q⌋ else ⌊q⌋ + 1

/-- Python's `int` conversion on a real value: truncation toward zero. -/
def pyInt (q : ℚ) : ℤ := if 0 ≤ q then ⌊q⌋ else ⌈q⌉

/-! Module-level configuration constants of cat_tracker.py. -/

def PAN_SERVO_PORT : ℕ := 0
def TILT_SERVO_PORT : ℕ := 1
def PAN_CENTER : ℤ := 90
def TILT_CENTER : ℤ := 90
def PAN_RANGE_MIN : ℤ := 30
def PAN_RANGE_MAX : ℤ := 150
def TILT_RANGE_MIN : ℤ := 50
def TILT_RANGE_MAX : ℤ := 130
def GAIN : ℚ := 11/20
def DEADZONE : ℚ := 1/20
def SCAN_STEP : ℚ := 2
def SCAN_START_FRAMES : ℕ := 10

/-! The mock servo driver (servo_driver.py, class MockServo; the identical
inlined copy lives in cat_tracker.py as _MockServo). -/

/-- In-memory servo substitute: one stored angle per port. -/
structure MockServo where
  _angles : List ℤ
deriving DecidableEq

/-- MockServo.__init__: all ports start at 90. -/
def MockServo.init (num_ports : ℕ) : MockServo :=
  ⟨List.replicate num_ports 90⟩

/-- MockServo.set_angle: store max(0, min(180, int(angle))) at the port. -/
def MockServo.set_angle (s : MockServo) (port : ℕ) (angle : ℚ) : MockServo :=
  ⟨s._angles.set port (max 0 (min 180 (pyInt angle)))⟩

/-- MockServo.get_angle: read the stored angle back. -/
def MockServo.get_angle (s : MockServo) (port : ℕ) : ℤ :=
  s._angles.getD port 90

/-! Detections and the target selector (cat_tracker.py, lines 358-387). -/

/-- One detection row after the integer conversion map(int, row[:4]). -/
structure Detection where
  x1 : ℤ
  y1 : ℤ
  x2 : ℤ
  y2 : ℤ
  cls_id : ℤ
deriving DecidableEq

def Detection.w_px (d : Detection) : ℤ := d.x2 - d.x1

def Detection.h_px (d : Detection) : ℤ := d.y2 - d.y1

def Detection.area (d : Detection) : ℤ := d.w_px * d.h_px

/-- Box center abscissa (x1 + x2) / 2.0. -/
def Detection.cx (d : Detection) : ℚ := ((d.x1 : ℚ) + (d.x2 : ℚ)) / 2

/-- Box center ordinate (y1 + y2) / 2.0. -/
def Detection.cy (d : Detection) : ℚ := ((d.y1 : ℚ) + (d.y2 : ℚ)) / 2

/-- The class/size part of the tracking condition: cls_id in class_ids and
w_px >= min_width and h_px >= min_height. -/
def qualifies (class_ids : List ℤ) (min_width min_height : ℤ) (d : Detection) : Bool :=
  class_ids.contains d.cls_id
    && decide (min_width ≤ d.w_px)
    && decide (min_height ≤ d.h_px)

/-- The selection fold over the detection rows: keep the qualifying
detection whose area strictly exceeds the best area seen so far
(best_area starts at 0, best starts absent). -/
def selectLoop (class_ids : List ℤ) (min_width min_height : ℤ) :
    List Detection → Option Detection → ℤ → Option Detection
  | [], best, _ => best
  | d :: rest, best, best_area =>
    if qualifies class_ids min_width min_height d && decide (best_area < d.area) then
      selectLoop class_ids min_width min_height rest (some d) d.area
    else
      selectLoop class_ids min_width min_height rest best best_area

/-- Target selection for one frame. -/
def select (class_ids : List ℤ) (min_width min_height : ℤ)
    (dets : List Detection) : Option Detection :=
  selectLoop class_ids min_width min_height dets none 0

/-! Per-axis proportional controller (cat_tracker.py, lines 424-437). -/

/-- Per-axis configuration: range, gain, deadzone, inversion flag. -/
structure AxisConfig where
  min_angle : ℤ
  max_angle : ℤ
  gain : ℚ
  deadzone : ℚ
  invert : Bool
deriving DecidableEq

/-- One tracking update of one axis: invert the error if configured, zero
it inside the deadzone, accumulate gain * err * range * 0.5, clamp to the
axis range; the clamped angle is stored and its Python rounding is the
commanded value. -/
def axisStep (cfg : AxisConfig) (cur err : ℚ) : ℚ × ℤ :=
  let e1 : ℚ := if cfg.invert then -err else err
  let e2 : ℚ := if |e1| < cfg.deadzone then 0 else e1
  let raw : ℚ := cur + cfg.gain * e2 * ((cfg.max_angle : ℚ) - (cfg.min_angle : ℚ)) * (1/2)
  let clamped : ℚ := max (cfg.min_angle : ℚ) (min (cfg.max_angle : ℚ) raw)
  (clamped, pyRound clamped)

/-- Frame-normalized positional error (cat_tracker.py, line 422):
(position - center) / max(center, 1). -/
def compute_err (center pos : ℚ) : ℚ := (pos - center) / max center 1

/-! The scan branch (cat_tracker.py, lines 443-449). -/

/-- One scan tick of the pan axis: advance by direction * step, pin to the
range bound and flip the direction when a bound is reached or passed. -/
def scanTick (min_angle max_angle : ℤ) (step pan : ℚ) (dir : ℤ) : ℚ × ℤ :=
  let p1 : ℚ := pan + (dir : ℚ) * step
  if (max_angle : ℚ) ≤ p1 then ((max_angle : ℚ), -1)
  else if p1 ≤ (min_angle : ℚ) then ((min_angle : ℚ), 1)
  else (p1, dir)

/-! The per-frame control loop (cat_tracker.py, lines 418-451). -/

/-- The whole configuration surface of the loop: the module constants
together with the command-line arguments that feed it. -/
structure Config where
  pan_center : ℤ
  tilt_center : ℤ
  pan_min : ℤ
  pan_max : ℤ
  tilt_min : ℤ
  tilt_max : ℤ
  gain : ℚ
  deadzone : ℚ
  scan_step : ℚ
  scan_start_frames : ℕ
  invert_pan : Bool
  invert_tilt : Bool
  class_ids : List ℤ
  min_width : ℤ
  min_height : ℤ
deriving DecidableEq

def Config.panAxis (cfg : Config) : AxisConfig :=
  ⟨cfg.pan_min, cfg.pan_max, cfg.gain, cfg.deadzone, cfg.invert_pan⟩

def Config.tiltAxis (cfg : Config) : AxisConfig :=
  ⟨cfg.tilt_min, cfg.tilt_max, cfg.gain, cfg.deadzone, cfg.invert_tilt⟩

/-- The configuration the source runs with by default: the module
constants, default --gain, no inversion, cat (15) and person (0). -/
def defaultConfig : Config :=
  ⟨PAN_CENTER, TILT_CENTER, PAN_RANGE_MIN, PAN_RANGE_MAX, TILT_RANGE_MIN, TILT_RANGE_MAX,
    GAIN, DEADZONE, SCAN_STEP, SCAN_START_FRAMES, false, false, [15, 0], 0, 0⟩

/-- One captured frame as the loop sees it: its detections and pixel size. -/
structure Frame where
  dets : List Detection
  width : ℕ
  height : ℕ
deriving DecidableEq

/-- The cross-frame mutable state of the loop. -/
structure LoopState where
  pan_angle : ℚ
  tilt_angle : ℚ
  scan_direction : ℤ
  frames_no_target : ℕ
deriving DecidableEq

/-- State right before the first frame: both angles at center, direction
+1, miss counter 0. -/
def initState (cfg : Config) : LoopState :=
  ⟨(cfg.pan_center : ℚ), (cfg.tilt_center : ℚ), 1, 0⟩

/-- Observable actions of one loop iteration or of shutdown. -/
inductive Event where
  | servoCmd (port : ℕ) (angle : ℤ)
  | capRelease
  | destroyWindows
deriving DecidableEq

/-- Result of processing one frame: the new state, the actuator commands
issued, and whether the scan branch ran. -/
structure FrameResult where
  state : LoopState
  events : List Event
  scanned : Bool
deriving DecidableEq

/-- One iteration of the servo-driving part of the loop body: select a
target; on a hit reset the miss counter and run both axis controllers; on
a miss increment the counter and, once it has reached SCAN_START_FRAMES,
run a scan tick (re-sending the tilt command unchanged). -/
def frameStep (cfg : Config) (s : LoopState) (f : Frame) : FrameResult :=
  let center_x : ℚ := (f.width : ℚ) / 2
  let center_y : ℚ := (f.height : ℚ) / 2
  match select cfg.class_ids cfg.min_width cfg.min_height f.dets with
  | some d =>
    let pan := axisStep cfg.panAxis s.pan_angle (compute_err center_x d.cx)
    let tilt := axisStep cfg.tiltAxis s.tilt_angle (compute_err center_y d.cy)
    ⟨⟨pan.1, tilt.1, s.scan_direction, 0⟩,
      [Event.servoCmd PAN_SERVO_PORT pan.2, Event.servoCmd TILT_SERVO_PORT tilt.2],
      false⟩
  | none =>
    let n := s.frames_no_target + 1
    if cfg.scan_start_frames ≤ n then
      let p := scanTick cfg.pan_min cfg.pan_max cfg.scan_step s.pan_angle s.scan_direction
      ⟨⟨p.1, s.tilt_angle, p.2, n⟩,
        [Event.servoCmd PAN_SERVO_PORT (pyRound p.1),
          Event.servoCmd TILT_SERVO_PORT (pyRound s.tilt_angle)],
        true⟩
    else
      ⟨⟨s.pan_angle, s.tilt_angle, s.scan_direction, n⟩, [], false⟩

/-- Run the loop over a list of frames; the boolean records whether any
iteration ran the scan branch. -/
def runFrames (cfg : Config) : LoopState → List Frame → LoopState × Bool
  | s, [] => (s, false)
  | s, f :: rest =>
    let r := frameStep cfg s f
    let tail := runFrames cfg r.state rest
    (tail.1, r.scanned || tail.2)

/-- The actuator commands the loop issues over a list of frames. -/
def runEvents (cfg : Config) : LoopState → List Frame → List Event
  | _, [] => []
  | s, f :: rest =>
    (frameStep cfg s f).events ++ runEvents cfg (frameStep cfg s f).state rest

/-- The finally block of main (cat_tracker.py, lines 495-501):
cap.release() first, then the re-centering commands, then window
teardown. -/
def cleanupEvents (cfg : Config) (show_window : Bool) : List Event :=
  Event.capRelease
    :: Event.servoCmd PAN_SERVO_PORT cfg.pan_center
    :: Event.servoCmd TILT_SERVO_PORT cfg.tilt_center
    :: (if show_window then [Event.destroyWindows] else [])

/-- main, reduced to the core: reject an empty class-id list before the
loop, otherwise run every frame. -/
def catMain (cfg : Config) (frames : List Frame) : Option (LoopState × Bool) :=
  if cfg.class_ids.isEmpty then none
  else some (runFrames cfg (initState cfg) frames)

/-- Event trace of a whole run of main: startup centering, the loop over
the frames that were processed before an abort (a fatal error after
abortAfter frames cuts the loop short; the finally block still runs), and
the cleanup block. Startup rejection produces no events. -/
def catMainTrace (cfg : Config) (frames : List Frame) (abortAfter : Option ℕ)
    (show_window : Bool) : List Event :=
  if cfg.class_ids.isEmpty then []
  else
    (Event.servoCmd PAN_SERVO_PORT cfg.pan_center
        :: Event.servoCmd TILT_SERVO_PORT cfg.tilt_center
        :: runEvents cfg (initState cfg)
            (match abortAfter with
              | none => frames
              | some k => frames.take k))
      ++ cleanupEvents cfg show_window

/-! Helper lemmas about the embedded operations. -/

/-- Unfolds the stored angle of an axis update into a single expression. -/
lemma axisStep_fst (cfg : AxisConfig) (cur err : ℚ) :
    (axisStep cfg cur err).1 =
      max (cfg.min_angle : ℚ) (min (cfg.max_angle : ℚ)
        (cur + cfg.gain
          * (if |if cfg.invert then -err else err| < cfg.deadzone then 0
              else if cfg.invert then -err else err)
          * ((cfg.max_angle : ℚ) - (cfg.min_angle : ℚ)) * (1/2))) := rfl

/-- A clamped value lies inside the clamping range. -/
lemma clamp_mem {lo hi x : ℚ} (h : lo ≤ hi) :
    lo ≤ max lo (min hi x) ∧ max lo (min hi x) ≤ hi :=
  ⟨le_max_left _ _, max_le h (min_le_left _ _)⟩

/-- The stored angle of an axis update lies inside the configured range. -/
lemma axisStep_mem (cfg : AxisConfig) (cur err : ℚ) (h : cfg.min_angle ≤ cfg.max_angle) :
    (cfg.min_angle : ℚ) ≤ (axisStep cfg cur err).1 ∧
      (axisStep cfg cur err).1 ≤ (cfg.max_angle : ℚ) := by
  rw [axisStep_fst]
  exact clamp_mem (by exact_mod_cast h)

/-- The pan angle produced by a scan tick lies inside the configured
range, whatever the incoming angle was. -/
lemma scanTick_mem (mn mx : ℤ) (step pan : ℚ) (dir : ℤ) (h : mn ≤ mx) :
    (mn : ℚ) ≤ (scanTick mn mx step pan dir).1 ∧
      (scanTick mn mx step pan dir).1 ≤ (mx : ℚ) := by
  have h' : (mn : ℚ) ≤ (mx : ℚ) := by exact_mod_cast h
  simp only [scanTick]
  split_ifs with h1 h2
  · exact ⟨h', le_refl _⟩
  · exact ⟨le_refl _, h'⟩
  · exact ⟨le_of_lt (not_le.mp h2), le_of_lt (not_le.mp h1)⟩

/-! Claim theorems. -/

/-- The commanded value of an axis update is the Python rounding of the
stored angle. -/
lemma axisStep_snd (cfg : AxisConfig) (cur err : ℚ) :
    (axisStep cfg cur err).2 = pyRound (axisStep cfg cur err).1 := rfl

/-- An in-deadzone error leaves an in-range current angle unchanged. -/
lemma axisStep_deadzone (cfg : AxisConfig) (cur err : ℚ)
    (hd : |err| < cfg.deadzone)
    (hlo : (cfg.min_angle : ℚ) ≤ cur) (hhi : cur ≤ (cfg.max_angle : ℚ)) :
    (axisStep cfg cur err).1 = cur := by
  have he : |if cfg.invert then -err else err| < cfg.deadzone := by
    cases cfg.invert <;> simpa [abs_neg] using hd
  rw [axisStep_fst, if_pos he, mul_zero, zero_mul, zero_mul, add_zero,
    min_eq_right hhi, max_eq_right hlo]

/-- Outside the deadzone and without inversion, the stored angle is the
clamped proportional update. -/
lemma axisStep_no_invert (cfg : AxisConfig) (cur err : ℚ)
    (hinv : cfg.invert = false) (hdz : ¬ (|err| < cfg.deadzone)) :
    (axisStep cfg cur err).1 =
      max (cfg.min_angle : ℚ) (min (cfg.max_angle : ℚ)
        (cur + cfg.gain * err * ((cfg.max_angle : ℚ) - (cfg.min_angle : ℚ)) * (1/2))) := by
  rw [axisStep_fst, hinv, if_neg (show ¬ (false = true) from by decide), if_neg hdz]

/-- C6: for every axis configuration (inverted or not) and every error
with absolute value below the deadzone, the axis controller step leaves
the stored current angle unchanged, provided the current angle is inside
the configured range. -/
theorem c6_deadzone_no_motion (cfg : AxisConfig) (cur err : ℚ)
    (hd : |err| < cfg.deadzone)
    (hlo : (cfg.min_angle : ℚ) ≤ cur) (hhi : cur ≤ (cfg.max_angle : ℚ)) :
    (axisStep cfg cur err).1 = cur :=
  axisStep_deadzone cfg cur err hd hlo hhi

/-- Witness for C6 at an inverted pan configuration, angle 90, error
1/100 (inside the deadzone 1/20). -/
theorem c6_deadzone_no_motion_witness :
    (axisStep ⟨30, 150, 11/20, 1/20, true⟩ 90 (1/100)).1 = 90 :=
  c6_deadzone_no_motion ⟨30, 150, 11/20, 1/20, true⟩ 90 (1/100)
    (by rw [abs_of_nonneg (by norm_num : (0:ℚ) ≤ 1/100)]; norm_num)
    (by norm_num) (by norm_num)

/-- On a frame whose selection yields a target, the loop body runs both
axis controllers on the frame-normalized errors, resets the miss counter
and issues the two rounded commands. -/
lemma frameStep_hit_eq (cfg : Config) (s : LoopState) (f : Frame) (d : Detection)
    (hsel : select cfg.class_ids cfg.min_width cfg.min_height f.dets = some d) :
    frameStep cfg s f =
      ⟨⟨(axisStep cfg.panAxis s.pan_angle (compute_err ((f.width : ℚ)/2) d.cx)).1,
          (axisStep cfg.tiltAxis s.tilt_angle (compute_err ((f.height : ℚ)/2) d.cy)).1,
          s.scan_direction, 0⟩,
        [Event.servoCmd PAN_SERVO_PORT
            (axisStep cfg.panAxis s.pan_angle (compute_err ((f.width : ℚ)/2) d.cx)).2,
          Event.servoCmd TILT_SERVO_PORT
            (axisStep cfg.tiltAxis s.tilt_angle (compute_err ((f.height : ℚ)/2) d.cy)).2],
        false⟩ := by
  simp only [frameStep, hsel]

/-- The per-axis tracking update as the specification words it (invert,
deadzone, proportional accumulation, clamp, command the rounded angle,
store the unrounded clamped angle), amended in one point: the rounding
applied to the commanded value is Python's round-half-to-even, not
round-half-up. -/
def axisStepSpec (cfg : AxisConfig) (cur err : ℚ) : ℚ × ℤ :=
  let e : ℚ := if cfg.invert then -err else err
  let e2 : ℚ := if |e| < cfg.deadzone then 0 else e
  let new_angle : ℚ :=
    max (cfg.min_angle : ℚ) (min (cfg.max_angle : ℚ)
      (cur + cfg.gain * e2 * ((cfg.max_angle : ℚ) - (cfg.min_angle : ℚ)) * (1/2)))
  (new_angle, pyRound new_angle)

/-- Python rounding of 106.5 halves to the even neighbour 106. -/
lemma pyRound_scenario : pyRound (213/2) = 106 := by
  have hf : ⌊(213/2 : ℚ)⌋ = 106 := by
    rw [Int.floor_eq_iff]
    constructor <;> norm_num
  unfold pyRound
  rw [hf, if_neg (by push_cast; norm_num), if_neg (by push_cast; norm_num),
    if_pos (by decide)]

/-- Python rounding of the integer 90 is 90. -/
lemma pyRound_ninety : pyRound 90 = 90 := by
  have hf : ⌊(90 : ℚ)⌋ = 90 := by
    rw [Int.floor_eq_iff]
    constructor <;> norm_num
  unfold pyRound
  rw [hf, if_pos (by push_cast; norm_num)]

/-- The pan axis update of the C2 scenario evaluates to stored angle
106.5 and commanded value 106. -/
lemma axisStep_pan_scenario :
    axisStep ⟨30, 150, 11/20, 1/20, false⟩ 90 (1/2) = (213/2, 106) := by
  have hdz : ¬ (|(1/2 : ℚ)| < (1/20 : ℚ)) := by
    rw [abs_of_nonneg (by norm_num : (0:ℚ) ≤ 1/2)]
    norm_num
  have h1 : (axisStep ⟨30, 150, 11/20, 1/20, false⟩ 90 (1/2)).1 = 213/2 := by
    rw [axisStep_no_invert _ _ _ rfl hdz]
    have hval : (90 : ℚ) + 11/20 * (1/2) * ((((150:ℤ) : ℚ)) - (((30:ℤ) : ℚ))) * (1/2)
        = 213/2 := by push_cast; norm_num
    rw [show ((⟨30, 150, 11/20, 1/20, false⟩ : AxisConfig).min_angle : ℚ) = ((30:ℤ) : ℚ) from rfl]
    rw [show ((⟨30, 150, 11/20, 1/20, false⟩ : AxisConfig).max_angle : ℚ) = ((150:ℤ) : ℚ) from rfl]
    rw [show (⟨30, 150, 11/20, 1/20, false⟩ : AxisConfig).gain = (11/20 : ℚ) from rfl]
    rw [hval, min_eq_right (by push_cast; norm_num), max_eq_right (by push_cast; norm_num)]
  have h2 : (axisStep ⟨30, 150, 11/20, 1/20, false⟩ 90 (1/2)).2 = 106 := by
    rw [axisStep_snd, h1, pyRound_scenario]
  exact Prod.ext h1 h2

/-- The tilt axis update of the C2 scenario (centered target, error 0)
holds 90 and commands 90. -/
lemma axisStep_tilt_scenario :
    axisStep ⟨50, 130, 11/20, 1/20, false⟩ 90 0 = (90, 90) := by
  have h1 : (axisStep ⟨50, 130, 11/20, 1/20, false⟩ 90 0).1 = 90 := by
    refine axisStep_deadzone _ _ _ ?_ ?_ ?_
    · rw [abs_zero]; norm_num
    · push_cast; norm_num
    · push_cast; norm_num
  have h2 : (axisStep ⟨50, 130, 11/20, 1/20, false⟩ 90 0).2 = 90 := by
    rw [axisStep_snd, h1, pyRound_ninety]
  exact Prod.ext h1 h2

/-- C2 counterexample: for the pan configuration of the scenario
(range 30..150, gain 0.55, deadzone 0.05, not inverted), current angle 90
and error 1/2, the stored angle is 106.5 as claimed, but the commanded
value is 106, not 107: the clamped angle is exactly 106.5 and Python's
round halves to the even neighbour. -/
theorem c2_tracking_step_counterexample :
    (axisStep ⟨30, 150, 11/20, 1/20, false⟩ 90 (1/2)).1 = 213/2 ∧
    (axisStep ⟨30, 150, 11/20, 1/20, false⟩ 90 (1/2)).2 = 106 ∧
    (axisStep ⟨30, 150, 11/20, 1/20, false⟩ 90 (1/2)).2 ≠ 107 := by
  refine ⟨?_, ?_, ?_⟩
  · rw [axisStep_pan_scenario]
  · rw [axisStep_pan_scenario]
  · rw [axisStep_pan_scenario]
    decide

/-- C2 amended: the tracking step computes the claimed error and angle
formulas (the axis update coincides with the specification-worded update
whose rounding is Python's round-half-to-even), and in the scenario with
pan range 30..150, gain 0.55, deadzone 0.05, not inverted, error 1/2
(realized by a target centered at x = 480 in a 640x480 frame), the stored
pan state is 106.5 while the commanded value is 106. -/
theorem c2_tracking_step_amended :
    (∀ (cfg : AxisConfig) (cur err : ℚ), axisStep cfg cur err = axisStepSpec cfg cur err) ∧
    (∀ center pos : ℚ, compute_err center pos = (pos - center) / max center 1) ∧
    compute_err 320 (Detection.cx ⟨470, 230, 490, 250, 15⟩) = 1/2 ∧
    (frameStep defaultConfig (initState defaultConfig)
        ⟨[⟨470, 230, 490, 250, 15⟩], 640, 480⟩).state.pan_angle = 213/2 ∧
    (frameStep defaultConfig (initState defaultConfig)
        ⟨[⟨470, 230, 490, 250, 15⟩], 640, 480⟩).events
      = [Event.servoCmd PAN_SERVO_PORT 106, Event.servoCmd TILT_SERVO_PORT 90] := by
  have hcx : Detection.cx ⟨470, 230, 490, 250, 15⟩ = 480 := by
    unfold Detection.cx; push_cast; norm_num
  have hcy : Detection.cy ⟨470, 230, 490, 250, 15⟩ = 240 := by
    unfold Detection.cy; push_cast; norm_num
  have herrx : compute_err 320 (480 : ℚ) = 1/2 := by
    unfold compute_err
    rw [max_eq_left (by norm_num : (1:ℚ) ≤ 320)]
    norm_num
  have herry : compute_err 240 (240 : ℚ) = 0 := by
    unfold compute_err
    rw [max_eq_left (by norm_num : (1:ℚ) ≤ 240)]
    norm_num
  have hsel : select defaultConfig.class_ids defaultConfig.min_width defaultConfig.min_height
      ([⟨470, 230, 490, 250, 15⟩] : List Detection) = some ⟨470, 230, 490, 250, 15⟩ := by
    decide
  have hstep := frameStep_hit_eq defaultConfig (initState defaultConfig)
    ⟨[⟨470, 230, 490, 250, 15⟩], 640, 480⟩ ⟨470, 230, 490, 250, 15⟩ hsel
  have hw : (((⟨[⟨470, 230, 490, 250, 15⟩], 640, 480⟩ : Frame).width : ℚ)) / 2 = 320 := by
    push_cast; norm_num
  have hh : (((⟨[⟨470, 230, 490, 250, 15⟩], 640, 480⟩ : Frame).height : ℚ)) / 2 = 240 := by
    push_cast; norm_num
  have hpanangle : (initState defaultConfig).pan_angle = (90 : ℚ) := by
    unfold initState defaultConfig PAN_CENTER; push_cast; norm_num
  have htiltangle : (initState defaultConfig).tilt_angle = (90 : ℚ) := by
    unfold initState defaultConfig TILT_CENTER; push_cast; norm_num
  have hpcfg : defaultConfig.panAxis = (⟨30, 150, 11/20, 1/20, false⟩ : AxisConfig) := rfl
  have htcfg : defaultConfig.tiltAxis = (⟨50, 130, 11/20, 1/20, false⟩ : AxisConfig) := rfl
  rw [hw, hh, hcx, hcy, herrx, herry, hpanangle, htiltangle, hpcfg, htcfg,
    axisStep_pan_scenario, axisStep_tilt_scenario] at hstep
  refine ⟨fun _ _ _ => rfl, fun _ _ => rfl, ?_, ?_, ?_⟩
  · rw [hcx, herrx]
  · rw [hstep]
  · rw [hstep]

/-- One scenario tick of C4: a scan tick at the source's pan range with
step 2 degrees. -/
def c4ScanStep (p : ℚ × ℤ) : ℚ × ℤ :=
  scanTick PAN_RANGE_MIN PAN_RANGE_MAX 2 p.1 p.2

/-- A leftward scan tick strictly inside the range descends by exactly
the step. -/
lemma c4ScanStep_down (p : ℚ) (h1 : (30 : ℚ) + 2 < p) (h2 : p ≤ 150) :
    c4ScanStep (p, -1) = (p - 2, -1) := by
  have hp : p + (((-1 : ℤ)) : ℚ) * 2 = p - 2 := by push_cast; ring
  simp only [c4ScanStep, scanTick, PAN_RANGE_MIN, PAN_RANGE_MAX]
  rw [hp, if_neg (by push_cast; linarith), if_neg (by push_cast; linarith)]

/-- The first scenario tick: 149 + 2 = 151 reaches the max, so the tick
pins to 150 and flips the direction. -/
lemma c4ScanStep_first : c4ScanStep (149, 1) = (150, -1) := by
  simp only [c4ScanStep, scanTick, PAN_RANGE_MIN, PAN_RANGE_MAX]
  rw [if_pos (by push_cast; norm_num)]
  constructor

/-- Closed form of the first twenty scenario ticks: from tick 1 on, the
pan state is 150 - 2(k-1) with direction -1. -/
lemma c4ScanStep_closed_form : ∀ k : ℕ, 1 ≤ k → k ≤ 20 →
    c4ScanStep^[k] (149, 1) = ((150 : ℚ) - 2 * ((k : ℚ) - 1), -1) := by
  intro k
  induction k with
  | zero => intro h; exact absurd h (by norm_num)
  | succ n ih =>
    intro _ h2
    by_cases hn : n = 0
    · subst hn
      rw [Function.iterate_one, c4ScanStep_first]
      simp only [Prod.mk.injEq]
      refine ⟨by push_cast; norm_num, trivial⟩
    · have hn1 : 1 ≤ n := Nat.one_le_iff_ne_zero.mpr hn
      have hn19 : (n : ℚ) ≤ 19 := by exact_mod_cast (by omega : n ≤ 19)
      have hnq1 : (1 : ℚ) ≤ (n : ℚ) := by exact_mod_cast hn1
      rw [Function.iterate_succ_apply', ih hn1 (by omega),
        c4ScanStep_down _ (by linarith) (by linarith)]
      simp only [Prod.mk.injEq]
      refine ⟨by push_cast; ring, trivial⟩

/-- C4: a scan tick that reaches or exceeds the max angle pins the pan
state to exactly the max angle and flips the direction to -1 on the same
tick; symmetrically at the min angle; the direction stays in {+1, -1};
and from pan 149, direction +1, step 2, max 150, the first tick yields
exactly 150 with direction -1 and the 19 following ticks descend by 2. -/
theorem c4_scan_boundary :
    (∀ (mn mx : ℤ) (step pan : ℚ) (dir : ℤ),
        (mx : ℚ) ≤ pan + (dir : ℚ) * step →
        scanTick mn mx step pan dir = ((mx : ℚ), -1)) ∧
    (∀ (mn mx : ℤ) (step pan : ℚ) (dir : ℤ), mn < mx →
        pan + (dir : ℚ) * step ≤ (mn : ℚ) →
        scanTick mn mx step pan dir = ((mn : ℚ), 1)) ∧
    (∀ (mn mx : ℤ) (step pan : ℚ) (dir : ℤ), dir = 1 ∨ dir = -1 →
        (scanTick mn mx step pan dir).2 = 1 ∨ (scanTick mn mx step pan dir).2 = -1) ∧
    (c4ScanStep^[1] (149, 1) = (150, -1) ∧
      ∀ k : ℕ, k < 20 → 1 ≤ k →
        (c4ScanStep^[k + 1] (149, 1)).1 = (c4ScanStep^[k] (149, 1)).1 - 2 ∧
        (c4ScanStep^[k + 1] (149, 1)).2 = -1) := by
  refine ⟨?_, ?_, ?_, ?_, ?_⟩
  · intro mn mx step pan dir h
    simp only [scanTick]
    rw [if_pos h]
  · intro mn mx step pan dir hlt h
    have hmn : (mn : ℚ) < (mx : ℚ) := by exact_mod_cast hlt
    simp only [scanTick]
    rw [if_neg (not_le.mpr (lt_of_le_of_lt h hmn)), if_pos h]
  · intro mn mx step pan dir h
    simp only [scanTick]
    split_ifs
    · exact Or.inr rfl
    · exact Or.inl rfl
    · exact h
  · rw [Function.iterate_one, c4ScanStep_first]
  · intro k hk20 hk1
    rw [c4ScanStep_closed_form k hk1 (by omega),
      c4ScanStep_closed_form (k + 1) (by omega) (by omega)]
    constructor
    · push_cast; ring
    · rfl

/-- Witness for C4 at the scenario input: pan 149, direction +1, step 2
reaches 151 ≥ 150, so the tick pins to 150 and flips to -1. -/
theorem c4_scan_boundary_witness :
    scanTick 30 150 2 149 1 = ((150 : ℚ), -1) :=
  c4_scan_boundary.1 30 150 2 149 1 (by norm_num)

/-! List lemmas for the mock servo state. -/

lemma getD_set_self : ∀ (l : List ℤ) (p : ℕ) (v : ℤ), p < l.length →
    (l.set p v).getD p 90 = v := by
  intro l
  induction l with
  | nil => intro p v h; simp at h
  | cons a t ih =>
    intro p v h
    cases p with
    | zero => simp
    | succ n =>
      simp only [List.set_cons_succ, List.getD_cons_succ]
      exact ih n v (by simpa using h)

lemma getD_set_ne : ∀ (l : List ℤ) (p q : ℕ) (v : ℤ), p ≠ q →
    (l.set q v).getD p 90 = l.getD p 90 := by
  intro l
  induction l with
  | nil => intro p q v _; simp
  | cons a t ih =>
    intro p q v hpq
    cases q with
    | zero =>
      cases p with
      | zero => exact absurd rfl hpq
      | succ m => simp
    | succ n =>
      cases p with
      | zero => simp
      | succ m =>
        simp only [List.set_cons_succ, List.getD_cons_succ]
        exact ih m n v (fun h => hpq (by rw [h]))

lemma getD_replicate : ∀ (n p : ℕ), (List.replicate n (90 : ℤ)).getD p 90 = 90 := by
  intro n
  induction n with
  | zero => intro p; simp
  | succ m ih =>
    intro p
    cases p with
    | zero => simp [List.replicate]
    | succ k => simp only [List.replicate, List.getD_cons_succ]; exact ih k

/-- C9: the in-memory servo substitute stores, per joint, the commanded
value truncated to an integer and clamped to [0, 180]; reading a joint
returns the last value so stored, a never-written joint reads 90, and
writing one joint leaves every other joint unchanged. -/
theorem c9_mock_servo_contract :
    (∀ (num_ports port : ℕ), (MockServo.init num_ports).get_angle port = 90) ∧
    (∀ (s : MockServo) (port : ℕ) (a : ℚ), port < s._angles.length →
        (s.set_angle port a).get_angle port = max 0 (min 180 (pyInt a))) ∧
    (∀ (s : MockServo) (p q : ℕ) (a : ℚ), p ≠ q →
        (s.set_angle q a).get_angle p = s.get_angle p) := by
  refine ⟨?_, ?_, ?_⟩
  · intro n p
    exact getD_replicate n p
  · intro s port a h
    exact getD_set_self s._angles port _ h
  · intro s p q a hpq
    exact getD_set_ne s._angles p q _ hpq

/-- Witness for C9: on a fresh four-port servo, commanding port 0 to
106.5 stores the truncated clamped value and reads back as such. -/
theorem c9_mock_servo_contract_witness :
    ((MockServo.init 4).set_angle 0 (213/2)).get_angle 0
      = max 0 (min 180 (pyInt (213/2))) :=
  c9_mock_servo_contract.2.1 (MockServo.init 4) 0 (213/2) (by decide)

/-- C10: on a miss frame whose incremented miss counter is still below
the scan-start threshold, the loop issues no actuator command at all and
leaves both stored angle states unchanged. -/
theorem c10_idle_miss_frame (cfg : Config) (s : LoopState) (f : Frame)
    (hmiss : select cfg.class_ids cfg.min_width cfg.min_height f.dets = none)
    (hlt : s.frames_no_target + 1 < cfg.scan_start_frames) :
    (frameStep cfg s f).events = [] ∧
    (frameStep cfg s f).state.pan_angle = s.pan_angle ∧
    (frameStep cfg s f).state.tilt_angle = s.tilt_angle := by
  simp only [frameStep, hmiss]
  rw [if_neg (by omega)]
  exact ⟨rfl, rfl, rfl⟩

/-- Witness for C10: an empty detection list on the first frame of the
default configuration (counter becomes 1 < 10) moves nothing. -/
theorem c10_idle_miss_frame_witness :
    (frameStep defaultConfig (initState defaultConfig) ⟨[], 640, 480⟩).events = [] ∧
    (frameStep defaultConfig (initState defaultConfig) ⟨[], 640, 480⟩).state.pan_angle
      = (initState defaultConfig).pan_angle ∧
    (frameStep defaultConfig (initState defaultConfig) ⟨[], 640, 480⟩).state.tilt_angle
      = (initState defaultConfig).tilt_angle :=
  c10_idle_miss_frame defaultConfig (initState defaultConfig) ⟨[], 640, 480⟩
    (by decide) (by decide)

/-- C7 counterexample: in the shutdown block both re-centering commands
are present, but neither precedes the capture release — the finally
block calls cap.release() first, so the claimed ordering (re-center
before releasing the capture resource) is false. -/
theorem c7_shutdown_order_counterexample :
    Event.capRelease ∈ cleanupEvents defaultConfig false ∧
    Event.servoCmd PAN_SERVO_PORT PAN_CENTER ∈ cleanupEvents defaultConfig false ∧
    Event.servoCmd TILT_SERVO_PORT TILT_CENTER ∈ cleanupEvents defaultConfig false ∧
    ¬ (List.indexOf (Event.servoCmd PAN_SERVO_PORT PAN_CENTER)
          (cleanupEvents defaultConfig false)
        < List.indexOf Event.capRelease (cleanupEvents defaultConfig false)) ∧
    ¬ (List.indexOf (Event.servoCmd TILT_SERVO_PORT TILT_CENTER)
          (cleanupEvents defaultConfig false)
        < List.indexOf Event.capRelease (cleanupEvents defaultConfig false)) := by
  decide

/-- C7 amended: on every termination of the loop — any frame sequence,
any abort point caused by a fatal error, window or not — the run's trace
ends with the capture release followed immediately by the re-centering
of both axes (and window teardown last); re-centering is unconditional
but happens after the capture release, not before. -/
theorem c7_shutdown_recenters (cfg : Config) (frames : List Frame)
    (abortAfter : Option ℕ) (show_window : Bool) (h : ¬ cfg.class_ids.isEmpty = true) :
    ∃ pre, catMainTrace cfg frames abortAfter show_window =
      pre ++ (Event.capRelease
        :: Event.servoCmd PAN_SERVO_PORT cfg.pan_center
        :: Event.servoCmd TILT_SERVO_PORT cfg.tilt_center
        :: (if show_window then [Event.destroyWindows] else [])) := by
  refine ⟨Event.servoCmd PAN_SERVO_PORT cfg.pan_center
      :: Event.servoCmd TILT_SERVO_PORT cfg.tilt_center
      :: runEvents cfg (initState cfg)
          (match abortAfter with
            | none => frames
            | some k => frames.take k), ?_⟩
  unfold catMainTrace cleanupEvents
  rw [if_neg h]

/-- Witness for C7 amended at the default configuration with no frames,
headless, no abort. -/
theorem c7_shutdown_recenters_witness :
    ∃ pre, catMainTrace defaultConfig [] none false =
      pre ++ (Event.capRelease
        :: Event.servoCmd PAN_SERVO_PORT defaultConfig.pan_center
        :: Event.servoCmd TILT_SERVO_PORT defaultConfig.tilt_center
        :: (if false then [Event.destroyWindows] else [])) :=
  c7_shutdown_recenters defaultConfig [] none false (by decide)

/-- A configuration whose pan axis has min_angle greater than max_angle
(and a nonempty tracked-class list). -/
def badRangeConfig : Config :=
  ⟨PAN_CENTER, TILT_CENTER, 150, 30, TILT_RANGE_MIN, TILT_RANGE_MAX,
    GAIN, DEADZONE, SCAN_STEP, SCAN_START_FRAMES, false, false, [15], 0, 0⟩

/-- C8 counterexample: a configuration whose pan axis has
min_angle = 150 > 30 = max_angle is not rejected at startup — the run
proceeds and processes a frame (the miss counter advances), because the
source validates only the class-id list. -/
theorem c8_startup_validation_counterexample :
    badRangeConfig.pan_max < badRangeConfig.pan_min ∧
    badRangeConfig.class_ids ≠ [] ∧
    catMain badRangeConfig [⟨[], 640, 480⟩] ≠ none ∧
    (runFrames badRangeConfig (initState badRangeConfig)
        [⟨[], 640, 480⟩]).1.frames_no_target = 1 := by
  refine ⟨by decide, by decide, ?_, ?_⟩
  · unfold catMain
    rw [if_neg (by decide)]
    exact Option.some_ne_none _
  · rfl

/-- C8 amended: startup rejects a configuration (producing no run, hence
processing no frame) exactly when the allowed-class list is empty; an
axis range with min_angle greater than max_angle is not validated. -/
theorem c8_startup_validation_amended (cfg : Config) (frames : List Frame) :
    catMain cfg frames = none ↔ cfg.class_ids.isEmpty = true := by
  unfold catMain
  by_cases h : cfg.class_ids.isEmpty = true
  · rw [if_pos h]
    simp [h]
  · rw [if_neg h]
    simp [h]

/-- Witness for C8 amended: the empty-class configuration is rejected
before any frame is processed. -/
theorem c8_startup_validation_amended_witness :
    catMain ⟨PAN_CENTER, TILT_CENTER, PAN_RANGE_MIN, PAN_RANGE_MAX, TILT_RANGE_MIN,
        TILT_RANGE_MAX, GAIN, DEADZONE, SCAN_STEP, SCAN_START_FRAMES, false, false,
        [], 0, 0⟩ [⟨[], 640, 480⟩] = none :=
  (c8_startup_validation_amended _ _).mpr (by decide)

/-- One frame of the loop keeps both stored angles inside their
configured ranges. -/
lemma frameStep_preserves_range (cfg : Config) (s : LoopState) (f : Frame)
    (hp : cfg.pan_min ≤ cfg.pan_max) (ht : cfg.tilt_min ≤ cfg.tilt_max)
    (hs : (((cfg.pan_min : ℚ) ≤ s.pan_angle ∧ s.pan_angle ≤ (cfg.pan_max : ℚ)) ∧
           ((cfg.tilt_min : ℚ) ≤ s.tilt_angle ∧ s.tilt_angle ≤ (cfg.tilt_max : ℚ)))) :
    (((cfg.pan_min : ℚ) ≤ (frameStep cfg s f).state.pan_angle ∧
        (frameStep cfg s f).state.pan_angle ≤ (cfg.pan_max : ℚ)) ∧
      ((cfg.tilt_min : ℚ) ≤ (frameStep cfg s f).state.tilt_angle ∧
        (frameStep cfg s f).state.tilt_angle ≤ (cfg.tilt_max : ℚ))) := by
  rcases hsel : select cfg.class_ids cfg.min_width cfg.min_height f.dets with _ | d
  · simp only [frameStep, hsel]
    split_ifs with hn
    · exact ⟨scanTick_mem cfg.pan_min cfg.pan_max cfg.scan_step s.pan_angle
        s.scan_direction hp, hs.2⟩
    · exact hs
  · simp only [frameStep, hsel]
    exact ⟨axisStep_mem cfg.panAxis s.pan_angle _ hp,
      axisStep_mem cfg.tiltAxis s.tilt_angle _ ht⟩

/-- Running any frame sequence keeps both stored angles inside their
configured ranges. -/
lemma runFrames_preserves_range (cfg : Config)
    (hp : cfg.pan_min ≤ cfg.pan_max) (ht : cfg.tilt_min ≤ cfg.tilt_max) :
    ∀ (frames : List Frame) (s : LoopState),
    (((cfg.pan_min : ℚ) ≤ s.pan_angle ∧ s.pan_angle ≤ (cfg.pan_max : ℚ)) ∧
      ((cfg.tilt_min : ℚ) ≤ s.tilt_angle ∧ s.tilt_angle ≤ (cfg.tilt_max : ℚ))) →
    (((cfg.pan_min : ℚ) ≤ (runFrames cfg s frames).1.pan_angle ∧
        (runFrames cfg s frames).1.pan_angle ≤ (cfg.pan_max : ℚ)) ∧
      ((cfg.tilt_min : ℚ) ≤ (runFrames cfg s frames).1.tilt_angle ∧
        (runFrames cfg s frames).1.tilt_angle ≤ (cfg.tilt_max : ℚ))) := by
  intro frames
  induction frames with
  | nil => intro s hs; exact hs
  | cons f rest ih =>
    intro s hs
    exact ih (frameStep cfg s f).state (frameStep_preserves_range cfg s f hp ht hs)

/-- C1: every write of an axis angle state lands inside the configured
range whenever min_angle ≤ max_angle — both for a tracking step with an
arbitrary error and for a scan tick — and consequently, for every
configuration whose axes satisfy the AxisConfig validity constraint
min_angle ≤ center_angle ≤ max_angle, both stored angles remain within
their configured ranges after every per-frame update of every frame
sequence, starting from the centered initialization. -/
theorem c1_angle_range_invariant :
    (∀ (acfg : AxisConfig) (cur err : ℚ), acfg.min_angle ≤ acfg.max_angle →
        (acfg.min_angle : ℚ) ≤ (axisStep acfg cur err).1 ∧
          (axisStep acfg cur err).1 ≤ (acfg.max_angle : ℚ)) ∧
    (∀ (mn mx : ℤ) (step pan : ℚ) (dir : ℤ), mn ≤ mx →
        (mn : ℚ) ≤ (scanTick mn mx step pan dir).1 ∧
          (scanTick mn mx step pan dir).1 ≤ (mx : ℚ)) ∧
    (∀ (cfg : Config) (frames : List Frame),
        cfg.pan_min ≤ cfg.pan_center → cfg.pan_center ≤ cfg.pan_max →
        cfg.tilt_min ≤ cfg.tilt_center → cfg.tilt_center ≤ cfg.tilt_max →
        (((cfg.pan_min : ℚ) ≤ (runFrames cfg (initState cfg) frames).1.pan_angle ∧
            (runFrames cfg (initState cfg) frames).1.pan_angle ≤ (cfg.pan_max : ℚ)) ∧
          ((cfg.tilt_min : ℚ) ≤ (runFrames cfg (initState cfg) frames).1.tilt_angle ∧
            (runFrames cfg (initState cfg) frames).1.tilt_angle ≤ (cfg.tilt_max : ℚ)))) := by
  refine ⟨fun acfg cur err h => axisStep_mem acfg cur err h,
    fun mn mx step pan dir h => scanTick_mem mn mx step pan dir h,
    fun cfg frames hp1 hp2 ht1 ht2 => ?_⟩
  refine runFrames_preserves_range cfg (le_trans hp1 hp2) (le_trans ht1 ht2) frames
    (initState cfg) ⟨⟨?_, ?_⟩, ⟨?_, ?_⟩⟩
  · exact (by exact_mod_cast hp1 : (cfg.pan_min : ℚ) ≤ (cfg.pan_center : ℚ))
  · exact (by exact_mod_cast hp2 : (cfg.pan_center : ℚ) ≤ (cfg.pan_max : ℚ))
  · exact (by exact_mod_cast ht1 : (cfg.tilt_min : ℚ) ≤ (cfg.tilt_center : ℚ))
  · exact (by exact_mod_cast ht2 : (cfg.tilt_center : ℚ) ≤ (cfg.tilt_max : ℚ))

/-- Witness for C1: the default configuration after a miss frame and a
tracking frame keeps both angles inside pan range 30..150 and tilt range
50..130. -/
theorem c1_angle_range_invariant_witness :
    (((defaultConfig.pan_min : ℚ)
        ≤ (runFrames defaultConfig (initState defaultConfig)
            [⟨[], 640, 480⟩, ⟨[⟨470, 230, 490, 250, 15⟩], 640, 480⟩]).1.pan_angle ∧
      (runFrames defaultConfig (initState defaultConfig)
          [⟨[], 640, 480⟩, ⟨[⟨470, 230, 490, 250, 15⟩], 640, 480⟩]).1.pan_angle
        ≤ (defaultConfig.pan_max : ℚ)) ∧
      ((defaultConfig.tilt_min : ℚ)
          ≤ (runFrames defaultConfig (initState defaultConfig)
              [⟨[], 640, 480⟩, ⟨[⟨470, 230, 490, 250, 15⟩], 640, 480⟩]).1.tilt_angle ∧
        (runFrames defaultConfig (initState defaultConfig)
            [⟨[], 640, 480⟩, ⟨[⟨470, 230, 490, 250, 15⟩], 640, 480⟩]).1.tilt_angle
          ≤ (defaultConfig.tilt_max : ℚ))) :=
  c1_angle_range_invariant.2.2 defaultConfig
    [⟨[], 640, 480⟩, ⟨[⟨470, 230, 490, 250, 15⟩], 640, 480⟩]
    (by decide) (by decide) (by decide) (by decide)

/-- A below-threshold miss frame only increments the counter. -/
lemma frameStep_idle_eq (cfg : Config) (s : LoopState) (f : Frame)
    (hmiss : select cfg.class_ids cfg.min_width cfg.min_height f.dets = none)
    (hlt : s.frames_no_target + 1 < cfg.scan_start_frames) :
    frameStep cfg s f =
      ⟨⟨s.pan_angle, s.tilt_angle, s.scan_direction, s.frames_no_target + 1⟩, [], false⟩ := by
  simp only [frameStep, hmiss]
  rw [if_neg (by omega)]

/-- On a miss frame the counter always increments by one. -/
lemma frameStep_miss_counter (cfg : Config) (s : LoopState) (f : Frame)
    (hmiss : select cfg.class_ids cfg.min_width cfg.min_height f.dets = none) :
    (frameStep cfg s f).state.frames_no_target = s.frames_no_target + 1 := by
  simp only [frameStep, hmiss]
  split_ifs <;> rfl

/-- On a hit frame the counter resets and no scan runs. -/
lemma frameStep_hit_counter (cfg : Config) (s : LoopState) (f : Frame) (d : Detection)
    (hsel : select cfg.class_ids cfg.min_width cfg.min_height f.dets = some d) :
    (frameStep cfg s f).state.frames_no_target = 0 ∧
      (frameStep cfg s f).scanned = false := by
  constructor <;> simp [frameStep, hsel]

/-- Running an appended frame list runs the two parts in sequence. -/
lemma runFrames_append (cfg : Config) : ∀ (xs ys : List Frame) (s : LoopState),
    runFrames cfg s (xs ++ ys)
      = ((runFrames cfg (runFrames cfg s xs).1 ys).1,
          (runFrames cfg s xs).2 || (runFrames cfg (runFrames cfg s xs).1 ys).2) := by
  intro xs
  induction xs with
  | nil =>
    intro ys s
    simp only [List.nil_append, runFrames, Bool.false_or]
  | cons f rest ih =>
    intro ys s
    simp only [List.cons_append, List.append_eq, runFrames]
    rw [ih ys (frameStep cfg s f).state]
    simp [Bool.or_assoc]

/-- A run of below-threshold miss frames never scans and advances the
counter by the run's length. -/
lemma runFrames_misses (cfg : Config) : ∀ (misses : List Frame) (s : LoopState),
    (∀ f ∈ misses, select cfg.class_ids cfg.min_width cfg.min_height f.dets = none) →
    s.frames_no_target + misses.length < cfg.scan_start_frames →
    (runFrames cfg s misses).2 = false ∧
      (runFrames cfg s misses).1.frames_no_target
        = s.frames_no_target + misses.length := by
  intro misses
  induction misses with
  | nil =>
    intro s _ _
    exact ⟨rfl, rfl⟩
  | cons f rest ih =>
    intro s hall hlt
    have hm : select cfg.class_ids cfg.min_width cfg.min_height f.dets = none :=
      hall f (List.mem_cons_self f rest)
    have hlen : (f :: rest).length = rest.length + 1 := rfl
    have hlt1 : s.frames_no_target + 1 < cfg.scan_start_frames := by
      rw [hlen] at hlt; omega
    have hstep := frameStep_idle_eq cfg s f hm hlt1
    have hrest := ih ⟨s.pan_angle, s.tilt_angle, s.scan_direction, s.frames_no_target + 1⟩
      (fun g hg => hall g (List.mem_cons_of_mem f hg))
      (by
        rw [hlen] at hlt
        show s.frames_no_target + 1 + rest.length < cfg.scan_start_frames
        omega)
    have hrest2 : (runFrames cfg
        ⟨s.pan_angle, s.tilt_angle, s.scan_direction, s.frames_no_target + 1⟩
        rest).1.frames_no_target = s.frames_no_target + 1 + rest.length := hrest.2
    simp only [runFrames, hstep]
    refine ⟨by rw [Bool.false_or]; exact hrest.1, ?_⟩
    rw [hrest2, hlen]
    omega

/-- C5: the scan branch never runs while the consecutive-miss counter is
below the threshold; the counter increments by one on each miss frame
and resets to zero on the first frame with a qualifying target (even if
scanning was already active); and a run of fewer than threshold miss
frames followed by a qualifying detection never activates scanning and
ends with the counter at zero. -/
theorem c5_scan_debounce :
    (∀ (cfg : Config) (s : LoopState) (f : Frame),
        (frameStep cfg s f).scanned = true →
        cfg.scan_start_frames ≤ (frameStep cfg s f).state.frames_no_target) ∧
    (∀ (cfg : Config) (s : LoopState) (f : Frame),
        select cfg.class_ids cfg.min_width cfg.min_height f.dets = none →
        (frameStep cfg s f).state.frames_no_target = s.frames_no_target + 1) ∧
    (∀ (cfg : Config) (s : LoopState) (f : Frame) (d : Detection),
        select cfg.class_ids cfg.min_width cfg.min_height f.dets = some d →
        (frameStep cfg s f).state.frames_no_target = 0 ∧
          (frameStep cfg s f).scanned = false) ∧
    (∀ (cfg : Config) (s : LoopState) (misses : List Frame) (hit : Frame) (d : Detection),
        s.frames_no_target = 0 →
        (∀ f ∈ misses, select cfg.class_ids cfg.min_width cfg.min_height f.dets = none) →
        misses.length + 1 ≤ cfg.scan_start_frames →
        select cfg.class_ids cfg.min_width cfg.min_height hit.dets = some d →
        (runFrames cfg s (misses ++ [hit])).2 = false ∧
          (runFrames cfg s (misses ++ [hit])).1.frames_no_target = 0) := by
  refine ⟨?_, ?_, ?_, ?_⟩
  · intro cfg s f hscan
    rcases hsel : select cfg.class_ids cfg.min_width cfg.min_height f.dets with _ | d
    · by_cases hge : cfg.scan_start_frames ≤ s.frames_no_target + 1
      · rw [frameStep_miss_counter cfg s f hsel]
        exact hge
      · rw [frameStep_idle_eq cfg s f hsel (by omega)] at hscan
        exact absurd hscan (by simp)
    · rw [(frameStep_hit_counter cfg s f d hsel).2] at hscan
      exact absurd hscan (by decide)
  · intro cfg s f hmiss
    exact frameStep_miss_counter cfg s f hmiss
  · intro cfg s f d hsel
    exact frameStep_hit_counter cfg s f d hsel
  · intro cfg s misses hit d h0 hall hlen hsel
    have hmrun := runFrames_misses cfg misses s hall (by omega)
    rw [runFrames_append cfg misses [hit] s]
    have hhit := frameStep_hit_counter cfg (runFrames cfg s misses).1 hit d hsel
    constructor
    · rw [hmrun.1, Bool.false_or]
      simp only [runFrames, hhit.2, Bool.false_or]
    · simp only [runFrames]
      exact hhit.1

/-- Witness for C5: a qualifying detection after nine misses resets the
counter and never scans (threshold 10 of the default configuration). -/
theorem c5_scan_debounce_witness :
    (runFrames defaultConfig (initState defaultConfig)
        (List.replicate 9 ⟨[], 640, 480⟩ ++ [⟨[⟨470, 230, 490, 250, 15⟩], 640, 480⟩])).2
      = false ∧
    (runFrames defaultConfig (initState defaultConfig)
        (List.replicate 9 ⟨[], 640, 480⟩
          ++ [⟨[⟨470, 230, 490, 250, 15⟩], 640, 480⟩])).1.frames_no_target = 0 :=
  c5_scan_debounce.2.2.2 defaultConfig (initState defaultConfig)
    (List.replicate 9 ⟨[], 640, 480⟩) ⟨[⟨470, 230, 490, 250, 15⟩], 640, 480⟩
    ⟨470, 230, 490, 250, 15⟩ (by decide)
    (by intro f hf; rw [List.eq_of_mem_replicate hf]; decide)
    (by decide) (by decide)

/-- Characterization of the selection fold for any accumulator: either
nothing in the remaining list beats the running best area and the
accumulator is returned, or the result is a qualifying element beating
the running best, strictly greater than every qualifying element before
it and not exceeded by any qualifying element after it. -/
lemma selectLoop_spec (ids : List ℤ) (mw mh : ℤ) :
    ∀ (dets : List Detection) (best : Option Detection) (A : ℤ),
      (selectLoop ids mw mh dets best A = best ∧
        ∀ d ∈ dets, qualifies ids mw mh d = true → d.area ≤ A) ∨
      (∃ pre b post, dets = pre ++ b :: post ∧
        selectLoop ids mw mh dets best A = some b ∧
        qualifies ids mw mh b = true ∧ A < b.area ∧
        (∀ e ∈ pre, qualifies ids mw mh e = true → e.area < b.area) ∧
        (∀ e ∈ post, qualifies ids mw mh e = true → e.area ≤ b.area)) := by
  intro dets
  induction dets with
  | nil =>
    intro best A
    left
    exact ⟨rfl, by simp⟩
  | cons d rest ih =>
    intro best A
    by_cases hc : (qualifies ids mw mh d && decide (A < d.area)) = true
    · have hc2 := hc
      rw [Bool.and_eq_true] at hc2
      have hq : qualifies ids mw mh d = true := hc2.1
      have hA : A < d.area := of_decide_eq_true hc2.2
      have hstep : selectLoop ids mw mh (d :: rest) best A
          = selectLoop ids mw mh rest (some d) d.area := by
        simp only [selectLoop]
        rw [if_pos hc]
      rcases ih (some d) d.area with ⟨heq, hall⟩ |
        ⟨pre, b, post, hsplit, hres, hqb, hAb, hpre, hpost⟩
      · right
        refine ⟨[], d, rest, by simp, ?_, hq, hA, by simp, ?_⟩
        · rw [hstep, heq]
        · intro e he hqe
          exact hall e he hqe
      · right
        refine ⟨d :: pre, b, post, by rw [hsplit]; rfl, ?_, hqb, lt_trans hA hAb, ?_, hpost⟩
        · rw [hstep, hres]
        · intro e he hqe
          rcases List.mem_cons.mp he with rfl | hmem
          · exact hAb
          · exact hpre e hmem hqe
    · have hstep : selectLoop ids mw mh (d :: rest) best A
          = selectLoop ids mw mh rest best A := by
        simp only [selectLoop]
        rw [if_neg hc]
      have hd : qualifies ids mw mh d = true → d.area ≤ A := by
        intro hq
        by_contra hgt
        push_neg at hgt
        exact hc (by simp [hq, hgt])
      rcases ih best A with ⟨heq, hall⟩ |
        ⟨pre, b, post, hsplit, hres, hqb, hAb, hpre, hpost⟩
      · left
        refine ⟨by rw [hstep, heq], ?_⟩
        intro e he hqe
        rcases List.mem_cons.mp he with rfl | hmem
        · exact hd hqe
        · exact hall e hmem hqe
      · right
        refine ⟨d :: pre, b, post, by rw [hsplit]; rfl, ?_, hqb, hAb, ?_, hpost⟩
        · rw [hstep, hres]
        · intro e he hqe
          rcases List.mem_cons.mp he with rfl | hmem
          · exact lt_of_le_of_lt (hd hqe) hAb
          · exact hpre e hmem hqe

/-- A detection with a genuine box (x1 < x2, y1 < y2) has positive area. -/
lemma area_pos_of_valid (d : Detection) (h : d.x1 < d.x2 ∧ d.y1 < d.y2) :
    0 < d.area :=
  mul_pos (by unfold Detection.w_px; omega) (by unfold Detection.h_px; omega)

/-- C3: over detections with genuine boxes, the selector returns absent
exactly when no detection qualifies, and otherwise returns the earliest
qualifying detection whose area strictly exceeds that of every
qualifying detection before it and is not exceeded by any qualifying
detection after it (a later equal-area detection does not replace it). -/
theorem c3_target_selector (class_ids : List ℤ) (min_width min_height : ℤ)
    (dets : List Detection)
    (hv : ∀ d ∈ dets, d.x1 < d.x2 ∧ d.y1 < d.y2) :
    (select class_ids min_width min_height dets = none ↔
      ∀ d ∈ dets, qualifies class_ids min_width min_height d = false) ∧
    (∀ b, select class_ids min_width min_height dets = some b →
      ∃ pre post, dets = pre ++ b :: post ∧
        qualifies class_ids min_width min_height b = true ∧
        (∀ e ∈ pre, qualifies class_ids min_width min_height e = true →
          e.area < b.area) ∧
        (∀ e ∈ post, qualifies class_ids min_width min_height e = true →
          e.area ≤ b.area)) := by
  rcases selectLoop_spec class_ids min_width min_height dets none 0 with
    ⟨heq, hall⟩ | ⟨pre, b, post, hsplit, hres, hqb, _, hpre, hpost⟩
  · constructor
    · constructor
      · intro _ d hd
        rcases Bool.eq_false_or_eq_true (qualifies class_ids min_width min_height d)
          with hq | hq
        · have h1 := hall d hd hq
          have h2 := area_pos_of_valid d (hv d hd)
          omega
        · exact hq
      · intro _
        exact heq
    · intro b hb
      rw [show select class_ids min_width min_height dets
          = selectLoop class_ids min_width min_height dets none 0 from rfl, heq] at hb
      exact absurd hb (by simp)
  · have hbmem : b ∈ dets := by
      rw [hsplit]
      exact List.mem_append_right _ (List.mem_cons_self _ _)
    constructor
    · constructor
      · intro h0
        rw [show select class_ids min_width min_height dets
            = selectLoop class_ids min_width min_height dets none 0 from rfl, hres] at h0
        exact absurd h0 (by simp)
      · intro hnone
        rw [hnone b hbmem] at hqb
        exact absurd hqb (by simp)
    · intro b' hb'
      rw [show select class_ids min_width min_height dets
          = selectLoop class_ids min_width min_height dets none 0 from rfl, hres] at hb'
      rcases Option.some_inj.mp hb' with rfl
      exact ⟨pre, post, hsplit, hqb, hpre, hpost⟩

/-- Witness for C3: with classes [15, 0] and no size floor, a large
person box (class 0) before a smaller cat box (class 15) — both qualify,
so the selector keeps the larger first box; the characterization holds
on this list. -/
theorem c3_target_selector_witness :
    (∀ d ∈ ([⟨0, 0, 50, 100, 0⟩, ⟨10, 10, 20, 20, 15⟩] : List Detection),
        d.x1 < d.x2 ∧ d.y1 < d.y2) ∧
    ((select [15, 0] 0 0 [⟨0, 0, 50, 100, 0⟩, ⟨10, 10, 20, 20, 15⟩] = none ↔
      ∀ d ∈ ([⟨0, 0, 50, 100, 0⟩, ⟨10, 10, 20, 20, 15⟩] : List Detection),
        qualifies [15, 0] 0 0 d = false) ∧
    (∀ b, select [15, 0] 0 0 [⟨0, 0, 50, 100, 0⟩, ⟨10, 10, 20, 20, 15⟩] = some b →
      ∃ pre post,
        ([⟨0, 0, 50, 100, 0⟩, ⟨10, 10, 20, 20, 15⟩] : List Detection)
          = pre ++ b :: post ∧
        qualifies [15, 0] 0 0 b = true ∧
        (∀ e ∈ pre, qualifies [15, 0] 0 0 e = true → e.area < b.area) ∧
        (∀ e ∈ post, qualifies [15, 0] 0 0 e = true → e.area ≤ b.area))) :=
  ⟨by decide,
    c3_target_selector [15, 0] 0 0 [⟨0, 0, 50, 100, 0⟩, ⟨10, 10, 20, 20, 15⟩] (by decide)⟩

end CatTracker
